import Mathlib

/-!
Shallow embedding of `src/dbbackup_flow/flows/pg_s3_backup.py`.

The Python module builds a Kubernetes Job manifest for a PostgreSQL-to-S3
backup container and submits it through the Prefect Kubernetes SDK.  Pure
helpers (`build_command_string`, `build_env_vars`, `build_job_manifest`,
`load_config_value`) are translated directly; the flow `run_pg_backup` is
modelled as a function from an explicit environment (Prefect variable
store, flow-run id, SDK results) to the list of SDK calls it performs plus
the response dict it returns.
-/

namespace DbBackupFlow

/-- Python values, enough to model the `dict[str, Any]` manifests the module
builds: strings, ints, bools, `None`, lists and (insertion-ordered) dicts. -/
inductive PyVal : Type where
  | pstr : String → PyVal
  | pint : Int → PyVal
  | pbool : Bool → PyVal
  | pnone : PyVal
  | plist : List PyVal → PyVal
  | pdict : List (String × PyVal) → PyVal

/-- Dict field access: `pyGet v k` is `v[k]` when `v` is a dict holding `k`. -/
def pyGet (v : PyVal) (k : String) : Option PyVal :=
  match v with
  | .pdict kvs => kvs.lookup k
  | _ => none

/-- Two-level dict access `v[k1][k2]`. -/
def pyGet2 (v : PyVal) (k1 k2 : String) : Option PyVal :=
  (pyGet v k1).bind (fun w => pyGet w k2)

-- Constants (pg_s3_backup.py lines 12-16).  `jobNameBase` models
-- JOB_NAME_PREFIX from the source.
def jobNameBase : String := "pg-s3-backup"
def APP_LABEL : String := "pg-s3-backup"
def FLOW_LABEL : String := "pg-s3-backup"
def CONTAINER_NAME : String := "pg-s3-backup"
def BACKUP_COMMAND : String := "/app/pg_s3_backup"

-- Prefect variable names (lines 19-25).  `VAR_PREFIX_NAME` models VAR_PREFIX.
def VAR_BUCKET : String := "pg_backup_bucket"
def VAR_PREFIX_NAME : String := "pg_backup_prefix"
def VAR_HOST : String := "pg_backup_host"
def VAR_DBNAME : String := "pg_backup_dbname"
def VAR_USER : String := "pg_backup_user"
def VAR_AWS_REGION : String := "pg_backup_aws_region"
def VAR_AWS_ENDPOINT_URL : String := "pg_backup_aws_endpoint_url"

/-- `load_config_value` (lines 28-38): `Variable.get(name=var_name, default=default)`
against a store of Prefect Variables, modelled as a partial map; returns the
stored value when one is set and the default otherwise. -/
def load_config_value {α : Type} (store : String → Option α)
    (var_name : String) (default : α) : α :=
  (store var_name).getD default

/-- Python double-quoting `f'"{s}"'` used for command arguments. -/
def quoteArg (s : String) : String := "\"" ++ s ++ "\""

/-- The `cmd_parts` list built by `build_command_string` (lines 76-112):
fixed head, then optional flags appended in source order.  `prefix_` models
the Python parameter `prefix`. -/
def build_command_parts (host : String) (port : Int) (dbname : String)
    (user : String) (bucket : String) (aws_profile : String)
    (aws_region : String) (backup_all : Bool) ( prefix_ : String)
    (aws_endpoint_url : Option String) (compress : Bool)
    (keep_local : Bool) : List String :=
  let cmd0 : List String :=
    ["/app/pg_s3_backup",
     "--host", quoteArg host,
     "--port", toString port,
     "--dbname", quoteArg dbname,
     "--user", quoteArg user,
     "--password", "\"$PGPASSWORD\"",
     "--bucket", quoteArg bucket,
     "--aws-access-key-id", "\"$AWS_ACCESS_KEY_ID\"",
     "--aws-secret-key", "\"$AWS_SECRET_ACCESS_KEY\"",
     "--aws-region", quoteArg aws_region]
  let cmd1 := cmd0 ++ (if backup_all then ["--all"] else [])
  let cmd2 := cmd1 ++ (if prefix_ ≠ "" then ["--prefix", quoteArg prefix_] else [])
  let cmd3 := cmd2 ++
    (match aws_endpoint_url with
     | some u => if u ≠ "" then ["--aws-endpoint-url", quoteArg u] else []
     | none => [])
  let cmd4 := cmd3 ++ (if compress then ["--compress"] else [])
  cmd4 ++ (if keep_local then ["--keep-local"] else [])

/-- `build_command_string` (lines 41-114): `" ".join(cmd_parts)`. -/
def build_command_string (host : String) (port : Int) (dbname : String)
    (user : String) (bucket : String) (aws_profile : String)
    (aws_region : String) (backup_all : Bool) ( prefix_ : String)
    (aws_endpoint_url : Option String) (compress : Bool)
    (keep_local : Bool) : String :=
  String.intercalate " "
    (build_command_parts host port dbname user bucket aws_profile aws_region
      backup_all prefix_ aws_endpoint_url compress keep_local)

/-- `build_env_vars` (lines 117-156): three env-var dicts, each a
`valueFrom.secretKeyRef` into the named Kubernetes Secret. -/
def build_env_vars (k8s_secret_name : String) : List PyVal :=
  [.pdict [("name", .pstr "PGPASSWORD"),
     ("valueFrom", .pdict [("secretKeyRef",
       .pdict [("name", .pstr k8s_secret_name), ("key", .pstr "pg-password")])])],
   .pdict [("name", .pstr "AWS_ACCESS_KEY_ID"),
     ("valueFrom", .pdict [("secretKeyRef",
       .pdict [("name", .pstr k8s_secret_name), ("key", .pstr "aws-access-key")])])],
   .pdict [("name", .pstr "AWS_SECRET_ACCESS_KEY"),
     ("valueFrom", .pdict [("secretKeyRef",
       .pdict [("name", .pstr k8s_secret_name), ("key", .pstr "aws-secret-key")])])]]

/-- `build_job_manifest` (lines 159-221): the Kubernetes Job manifest dict.
`imagePullSecrets` is appended to the pod spec only when `image_pull_secret`
is truthy (neither `None` nor empty). -/
def build_job_manifest (job_name : String) (image : String)
    (image_pull_policy : String) (command_string : String)
    (env_vars : List PyVal) (backoff_limit : Int)
    (ttl_seconds_after_finished : Int) (namespace_ : String)
    (image_pull_secret : Option String) : PyVal :=
  let basePodSpec : List (String × PyVal) :=
    [("restartPolicy", .pstr "Never"),
     ("containers", .plist
       [.pdict [("name", .pstr CONTAINER_NAME),
          ("image", .pstr image),
          ("imagePullPolicy", .pstr image_pull_policy),
          ("command", .plist [.pstr "/bin/sh", .pstr "-c"]),
          ("args", .plist [.pstr command_string]),
          ("env", .plist env_vars)]])]
  let pod_spec := basePodSpec ++
    (match image_pull_secret with
     | some s => if s ≠ "" then
         [("imagePullSecrets", .plist [.pdict [("name", .pstr s)]])] else []
     | none => [])
  .pdict
    [("apiVersion", .pstr "batch/v1"),
     ("kind", .pstr "Job"),
     ("metadata", .pdict
       [("name", .pstr job_name),
        ("namespace", .pstr namespace_),
        ("labels", .pdict
          [("app", .pstr APP_LABEL), ("prefect-flow", .pstr FLOW_LABEL)])]),
     ("spec", .pdict
       [("backoffLimit", .pint backoff_limit),
        ("ttlSecondsAfterFinished", .pint ttl_seconds_after_finished),
        ("template", .pdict [("spec", .pdict pod_spec)])])]

/-- The parameters of the flow `run_pg_backup` (lines 228-257), in source
order.  `namespace_` models `namespace` and `prefix_` models `prefix`. -/
structure FlowParams : Type where
  namespace_ : String
  k8s_secret_name : String
  image : String
  image_pull_policy : String
  image_pull_secret : Option String
  host : String
  port : Int
  dbname : String
  user : String
  backup_all : Bool
  bucket : String
  prefix_ : String
  aws_profile : String
  aws_region : String
  aws_endpoint_url : Option String
  compress : Bool
  keep_local : Bool
  include_logs : Bool
  backoff_limit : Int
  ttl_seconds_after_finished : Int

/-- The external world the flow reads: the Prefect Variable store (values,
when set, are strings), `flow_run.id` (a string, or `none` outside a flow
run), the boolean returned by `wait_for_completion`, and the value returned
by `fetch_result`. -/
structure FlowEnv : Type where
  store : String → Option String
  flow_run_id : Option String
  wait_result : Bool
  fetched_logs : PyVal

/-- The keyword arguments of the `KubernetesJob(...)` construction
(lines 363-369). -/
structure KubernetesJobConfig : Type where
  v1_job : PyVal
  namespace_ : String
  delete_after_completion : Bool
  timeout_seconds : Int

/-- The SDK calls the flow performs, in order: `job.trigger()`,
`job_run.wait_for_completion()`, `job_run.fetch_result()`. -/
inductive FlowEvent : Type where
  | trigger : KubernetesJobConfig → FlowEvent
  | wait_for_completion : FlowEvent
  | fetch_logs : FlowEvent

/-- `run_pg_backup` (lines 228-386), modelled as a pure function from the
flow parameters and the external environment to the ordered list of SDK
calls performed and the response dict returned.  Each `let` mirrors a
statement of the source: the seven `load_config_value` calls (308-314),
`build_command_string` (317-330), `build_env_vars` (333-335), the job name
from `flow_run.id` (338-340, Python truthiness: `none` and `""` both fall
back to `"manual"`), `build_job_manifest` (343-353), the `KubernetesJob`
construction (363-369), trigger / wait / optional fetch (371-373), and the
response dict (378-384). -/
def run_pg_backup (env : FlowEnv) (p : FlowParams) :
    List FlowEvent × List (String × PyVal) :=
  let bucket := load_config_value env.store VAR_BUCKET p.bucket
  let prefix_ := load_config_value env.store VAR_PREFIX_NAME p.prefix_
  let host := load_config_value env.store VAR_HOST p.host
  let dbname := load_config_value env.store VAR_DBNAME p.dbname
  let user := load_config_value env.store VAR_USER p.user
  let aws_region := load_config_value env.store VAR_AWS_REGION p.aws_region
  let aws_endpoint_url :=
    load_config_value (fun n => (env.store n).map some) VAR_AWS_ENDPOINT_URL
      p.aws_endpoint_url
  let command_string :=
    build_command_string host p.port dbname user bucket p.aws_profile
      aws_region p.backup_all prefix_ aws_endpoint_url p.compress p.keep_local
  let env_vars := build_env_vars p.k8s_secret_name
  let job_suffix :=
    match env.flow_run_id with
    | some i => if i ≠ "" then String.mk (i.data.take 8) else "manual"
    | none => "manual"
  let job_name := jobNameBase ++ "-" ++ job_suffix
  let job_manifest :=
    build_job_manifest job_name p.image p.image_pull_policy command_string
      env_vars p.backoff_limit p.ttl_seconds_after_finished p.namespace_
      p.image_pull_secret
  let job : KubernetesJobConfig := ⟨job_manifest, p.namespace_, true, 600⟩
  let events :=
    [FlowEvent.trigger job, FlowEvent.wait_for_completion] ++
      (if p.include_logs then [FlowEvent.fetch_logs] else [])
  let response :=
    [("success", PyVal.pbool env.wait_result),
     ("bucket", PyVal.pstr bucket),
     ("prefix", PyVal.pstr prefix_)] ++
      (if p.include_logs then [("logs", env.fetched_logs)] else [])
  (events, response)

/-- Concrete flow parameters (the source's defaults) used by witnesses. -/
def sampleParams : FlowParams :=
  ⟨"prefect", "pg-backup-secrets", "regv2.gsingh.io/personal/pg-s3-backup:latest",
   "Always", none, "localhost", 5432, "postgres", "postgres", false,
   "my-backups", "", "default", "us-east-1", none, false, false, true, 4, 300⟩

/-- The sample parameters with `include_logs := false`. -/
def sampleParamsNoLogs : FlowParams :=
  ⟨"prefect", "pg-backup-secrets", "regv2.gsingh.io/personal/pg-s3-backup:latest",
   "Always", none, "localhost", 5432, "postgres", "postgres", false,
   "my-backups", "", "default", "us-east-1", none, false, false, false, 4, 300⟩

/-- A concrete environment with an empty Variable store. -/
def sampleEnv : FlowEnv :=
  ⟨fun _ => none, some "0a1b2c3d-4e5f-6789-abcd-ef0123456789", true,
   PyVal.pstr "backup complete"⟩

/-- A concrete Variable store that sets only `pg_backup_bucket`. -/
def sampleStore : String → Option String :=
  fun n => if n = "pg_backup_bucket" then some "prod-bucket" else none

/-- Number of `trigger` calls in a trace of SDK calls. -/
def countTriggers : List FlowEvent → Nat
  | [] => 0
  | FlowEvent.trigger _ :: t => countTriggers t + 1
  | _ :: t => countTriggers t

/-- The manifest submitted by the first SDK call of a flow run, when that
call is a `trigger`. -/
def triggeredManifest (out : List FlowEvent × List (String × PyVal)) :
    Option PyVal :=
  match out.1 with
  | FlowEvent.trigger j :: _ => some j.v1_job
  | _ => none

/-- First element of a Python list value. -/
def pyFirst (v : PyVal) : Option PyVal :=
  match v with
  | .plist (x :: _) => some x
  | _ => none

/-- The `args` of the first container of a Job manifest
(`spec.template.spec.containers[0].args`). -/
def containerArgsOf (m : PyVal) : Option PyVal :=
  ((((pyGet2 m "spec" "template").bind
      (fun t => pyGet2 t "spec" "containers")).bind pyFirst).bind
    (fun c => pyGet c "args"))

/-- C1: `build_env_vars` returns exactly three environment variables named
PGPASSWORD, AWS_ACCESS_KEY_ID and AWS_SECRET_ACCESS_KEY, each a
`valueFrom.secretKeyRef` naming `k8s_secret_name` with keys pg-password,
aws-access-key and aws-secret-key respectively, and no literal values; the
command built by `build_command_string` (whose inputs include no secret
value at all) fills the `--password`, `--aws-access-key-id` and
`--aws-secret-key` slots with exactly the quoted shell expansions
`"$PGPASSWORD"`, `"$AWS_ACCESS_KEY_ID"` and `"$AWS_SECRET_ACCESS_KEY"`,
as the first 19 space-joined parts show. -/
theorem c1_secrets_only_by_reference (s host : String) (port : Int)
    (dbname user bucket ap ar : String) (ba : Bool) ( pf : String)
    (ep : Option String) (co ke : Bool) :
    build_env_vars s =
      [.pdict [("name", .pstr "PGPASSWORD"),
         ("valueFrom", .pdict [("secretKeyRef",
           .pdict [("name", .pstr s), ("key", .pstr "pg-password")])])],
       .pdict [("name", .pstr "AWS_ACCESS_KEY_ID"),
         ("valueFrom", .pdict [("secretKeyRef",
           .pdict [("name", .pstr s), ("key", .pstr "aws-access-key")])])],
       .pdict [("name", .pstr "AWS_SECRET_ACCESS_KEY"),
         ("valueFrom", .pdict [("secretKeyRef",
           .pdict [("name", .pstr s), ("key", .pstr "aws-secret-key")])])]] ∧
    (build_command_parts host port dbname user bucket ap ar ba pf ep co ke).take 19 =
      ["/app/pg_s3_backup",
       "--host", "\"" ++ host ++ "\"",
       "--port", toString port,
       "--dbname", "\"" ++ dbname ++ "\"",
       "--user", "\"" ++ user ++ "\"",
       "--password", "\"$PGPASSWORD\"",
       "--bucket", "\"" ++ bucket ++ "\"",
       "--aws-access-key-id", "\"$AWS_ACCESS_KEY_ID\"",
       "--aws-secret-key", "\"$AWS_SECRET_ACCESS_KEY\"",
       "--aws-region", "\"" ++ ar ++ "\""] ∧
    build_command_string host port dbname user bucket ap ar ba pf ep co ke =
      String.intercalate " "
        (build_command_parts host port dbname user bucket ap ar ba pf ep co ke) :=
  ⟨rfl, rfl, rfl⟩

/-- C7: `build_command_string` is the space-join of the parts list that
starts with `/app/pg_s3_backup` followed in fixed order by `--host`,
`--port` (decimal), `--dbname`, `--user`, `--password`, `--bucket`,
`--aws-access-key-id`, `--aws-secret-key`, `--aws-region` with their
values (strings double-quoted), and then the optional parts in order:
`--all` iff `backup_all`, `--prefix` iff the prefix is non-empty,
`--aws-endpoint-url` iff the endpoint is neither `None` nor empty,
`--compress` iff `compress`, `--keep-local` iff `keep_local`. -/
theorem c7_command_string_layout (host : String) (port : Int)
    (dbname user bucket ap ar : String) (ba : Bool) ( pf : String)
    (ep : Option String) (co ke : Bool) :
    build_command_string host port dbname user bucket ap ar ba pf ep co ke =
      String.intercalate " "
        ((["/app/pg_s3_backup",
           "--host", "\"" ++ host ++ "\"",
           "--port", toString port,
           "--dbname", "\"" ++ dbname ++ "\"",
           "--user", "\"" ++ user ++ "\"",
           "--password", "\"$PGPASSWORD\"",
           "--bucket", "\"" ++ bucket ++ "\"",
           "--aws-access-key-id", "\"$AWS_ACCESS_KEY_ID\"",
           "--aws-secret-key", "\"$AWS_SECRET_ACCESS_KEY\"",
           "--aws-region", "\"" ++ ar ++ "\""]
          ++ (if ba then ["--all"] else [])
          ++ (if pf ≠ "" then ["--prefix", "\"" ++ pf ++ "\""] else [])
          ++ (match ep with
              | some u => if u ≠ "" then
                  ["--aws-endpoint-url", "\"" ++ u ++ "\""] else []
              | none => [])
          ++ (if co then ["--compress"] else [])
          ++ (if ke then ["--keep-local"] else []))) :=
  rfl

/-- C2: for every input, the manifest built by `build_job_manifest` has
apiVersion "batch/v1", kind "Job", metadata holding the given job name and
namespace and exactly the labels app="pg-s3-backup" and
prefect-flow="pg-s3-backup", spec.backoffLimit and
spec.ttlSecondsAfterFinished equal to the given values, and a pod template
whose spec has restartPolicy "Never" and exactly one container named
"pg-s3-backup" with the given image and pull policy, command
["/bin/sh", "-c"], args the one-element list holding the command string,
and env the given env-var list. -/
theorem c2_job_manifest_shape (job_name image ipp cs : String)
    (ev : List PyVal) (bl ttl : Int) (ns : String) (ips : Option String) :
    pyGet (build_job_manifest job_name image ipp cs ev bl ttl ns ips)
        "apiVersion" = some (.pstr "batch/v1") ∧
    pyGet (build_job_manifest job_name image ipp cs ev bl ttl ns ips)
        "kind" = some (.pstr "Job") ∧
    pyGet (build_job_manifest job_name image ipp cs ev bl ttl ns ips)
        "metadata" = some (.pdict
          [("name", .pstr job_name),
           ("namespace", .pstr ns),
           ("labels", .pdict
             [("app", .pstr "pg-s3-backup"),
              ("prefect-flow", .pstr "pg-s3-backup")])]) ∧
    pyGet2 (build_job_manifest job_name image ipp cs ev bl ttl ns ips)
        "spec" "backoffLimit" = some (.pint bl) ∧
    pyGet2 (build_job_manifest job_name image ipp cs ev bl ttl ns ips)
        "spec" "ttlSecondsAfterFinished" = some (.pint ttl) ∧
    ((pyGet2 (build_job_manifest job_name image ipp cs ev bl ttl ns ips)
        "spec" "template").bind
      (fun t => pyGet2 t "spec" "restartPolicy")) = some (.pstr "Never") ∧
    ((pyGet2 (build_job_manifest job_name image ipp cs ev bl ttl ns ips)
        "spec" "template").bind
      (fun t => pyGet2 t "spec" "containers")) = some (.plist
        [.pdict [("name", .pstr "pg-s3-backup"),
           ("image", .pstr image),
           ("imagePullPolicy", .pstr ipp),
           ("command", .plist [.pstr "/bin/sh", .pstr "-c"]),
           ("args", .plist [.pstr cs]),
           ("env", .plist ev)]]) :=
  ⟨rfl, rfl, rfl, rfl, rfl, rfl, rfl⟩

/-- C9: the `aws_profile` parameter has no effect: `build_command_string`
returns identical strings for any two profile values with all other
arguments equal, and `run_pg_backup` performs the same SDK calls (same
manifest included) and returns the same response for any two profile
values. -/
theorem c9_aws_profile_has_no_effect (env : FlowEnv) (p : FlowParams)
    (ap1 ap2 host : String) (port : Int) (dbname user bucket ar : String)
    (ba : Bool) ( pf : String) (ep : Option String) (co ke : Bool) :
    build_command_string host port dbname user bucket ap1 ar ba pf ep co ke =
      build_command_string host port dbname user bucket ap2 ar ba pf ep co ke ∧
    run_pg_backup env
        ⟨p.namespace_, p.k8s_secret_name, p.image, p.image_pull_policy,
         p.image_pull_secret, p.host, p.port, p.dbname, p.user, p.backup_all,
         p.bucket, p.prefix_, ap1, p.aws_region, p.aws_endpoint_url,
         p.compress, p.keep_local, p.include_logs, p.backoff_limit,
         p.ttl_seconds_after_finished⟩ =
      run_pg_backup env
        ⟨p.namespace_, p.k8s_secret_name, p.image, p.image_pull_policy,
         p.image_pull_secret, p.host, p.port, p.dbname, p.user, p.backup_all,
         p.bucket, p.prefix_, ap2, p.aws_region, p.aws_endpoint_url,
         p.compress, p.keep_local, p.include_logs, p.backoff_limit,
         p.ttl_seconds_after_finished⟩ :=
  ⟨rfl, rfl⟩

/-- C10: the flow constructs the KubernetesJob with
`delete_after_completion = True` and `timeout_seconds = 600` for every
input: the first SDK call is a trigger of a job so configured. -/
theorem c10_job_deletion_and_timeout (env : FlowEnv) (p : FlowParams) :
    ∃ j : KubernetesJobConfig,
      (run_pg_backup env p).1.head? = some (FlowEvent.trigger j) ∧
      j.delete_after_completion = true ∧ j.timeout_seconds = 600 :=
  ⟨_, rfl, rfl, rfl⟩

/-- C3: `load_config_value` returns the stored Variable value when one is
set and the default unchanged otherwise; `run_pg_backup` consults the
store only at the seven names pg_backup_bucket, pg_backup_prefix,
pg_backup_host, pg_backup_dbname, pg_backup_user, pg_backup_aws_region and
pg_backup_aws_endpoint_url (any store agreeing there yields the identical
run), and the command submitted in the manifest uses exactly the seven
resolved settings while port comes from the call argument `p.port`. -/
theorem c3_config_fallback_resolution {α : Type} (store : String → Option α)
    (nm : String) (d v : α) (env : FlowEnv) (p : FlowParams)
    (store2 : String → Option String)
    (hb : store2 VAR_BUCKET = env.store VAR_BUCKET)
    (hp : store2 VAR_PREFIX_NAME = env.store VAR_PREFIX_NAME)
    (hh : store2 VAR_HOST = env.store VAR_HOST)
    (hd : store2 VAR_DBNAME = env.store VAR_DBNAME)
    (hu : store2 VAR_USER = env.store VAR_USER)
    (hr : store2 VAR_AWS_REGION = env.store VAR_AWS_REGION)
    (he : store2 VAR_AWS_ENDPOINT_URL = env.store VAR_AWS_ENDPOINT_URL) :
    (store nm = some v → load_config_value store nm d = v) ∧
    (store nm = none → load_config_value store nm d = d) ∧
    run_pg_backup ⟨store2, env.flow_run_id, env.wait_result, env.fetched_logs⟩ p
      = run_pg_backup env p ∧
    (run_pg_backup env p).2.lookup "bucket"
      = some (.pstr (load_config_value env.store VAR_BUCKET p.bucket)) ∧
    (run_pg_backup env p).2.lookup "prefix"
      = some (.pstr (load_config_value env.store VAR_PREFIX_NAME p.prefix_)) ∧
    ((triggeredManifest (run_pg_backup env p)).bind containerArgsOf)
      = some (.plist [.pstr (build_command_string
          (load_config_value env.store VAR_HOST p.host) p.port
          (load_config_value env.store VAR_DBNAME p.dbname)
          (load_config_value env.store VAR_USER p.user)
          (load_config_value env.store VAR_BUCKET p.bucket) p.aws_profile
          (load_config_value env.store VAR_AWS_REGION p.aws_region)
          p.backup_all
          (load_config_value env.store VAR_PREFIX_NAME p.prefix_)
          (load_config_value (fun n => (env.store n).map some)
            VAR_AWS_ENDPOINT_URL p.aws_endpoint_url)
          p.compress p.keep_local)]) := by
  refine ⟨fun h => by simp [load_config_value, h],
          fun h => by simp [load_config_value, h], ?_, ?_, ?_, ?_⟩
  · simp only [run_pg_backup, load_config_value, hb, hp, hh, hd, hu, hr, he]
  · rfl
  · rfl
  · rfl

/-- Witness for C3 at concrete inputs: a store holding only
pg_backup_bucket resolves that name to its stored value and an unrelated
name to the default, and a run against a pointwise-equal store is
identical. -/
theorem c3_config_fallback_resolution_witness :
    load_config_value sampleStore "pg_backup_bucket" "my-backups"
      = "prod-bucket" ∧
    load_config_value sampleStore "pg_backup_port" "5432" = "5432" ∧
    run_pg_backup ⟨sampleEnv.store, sampleEnv.flow_run_id,
        sampleEnv.wait_result, sampleEnv.fetched_logs⟩ sampleParams
      = run_pg_backup sampleEnv sampleParams := by
  have h1 := c3_config_fallback_resolution sampleStore "pg_backup_bucket"
    "my-backups" "prod-bucket" sampleEnv sampleParams sampleEnv.store
    rfl rfl rfl rfl rfl rfl rfl
  have h2 := c3_config_fallback_resolution sampleStore "pg_backup_port"
    "5432" "other" sampleEnv sampleParams sampleEnv.store
    rfl rfl rfl rfl rfl rfl rfl
  exact ⟨h1.1 (by simp [sampleStore]),
         h2.2.1 (by simp [sampleStore]),
         h1.2.2.1⟩

/-- C4: the flow relays the boolean returned by the completion wait as the
"success" entry of the response, and performs no failure handling beyond
that: the SDK-call trace does not depend on the wait result (no retry, no
raise), the "logs" entry does not depend on it, and exactly one trigger
is issued. -/
theorem c4_success_relayed_no_failure_handling (env : FlowEnv)
    (p : FlowParams) (wr : Bool) :
    (run_pg_backup env p).2.lookup "success"
      = some (.pbool env.wait_result) ∧
    (run_pg_backup ⟨env.store, env.flow_run_id, wr, env.fetched_logs⟩ p).1
      = (run_pg_backup env p).1 ∧
    (run_pg_backup ⟨env.store, env.flow_run_id, wr, env.fetched_logs⟩ p).2.lookup "logs"
      = (run_pg_backup env p).2.lookup "logs" ∧
    countTriggers (run_pg_backup env p).1 = 1 := by
  refine ⟨rfl, rfl, rfl, ?_⟩
  rcases hinc : p.include_logs <;>
    simp [run_pg_backup, countTriggers, hinc]

/-- C5: every run performs, in order, configuration resolution, command
and env-var construction, manifest assembly, exactly one trigger, then
the completion wait, then (only when logs are included) the log fetch:
the SDK-call trace is literally the trigger of the manifest assembled
from the resolved configuration, followed by the wait, followed by the
optional fetch, and it holds exactly one trigger. -/
theorem c5_step_order_single_trigger (env : FlowEnv) (p : FlowParams) :
    (run_pg_backup env p).1 =
      FlowEvent.trigger
        ⟨build_job_manifest
          (jobNameBase ++ "-" ++
            (match env.flow_run_id with
             | some i => if i ≠ "" then String.mk (i.data.take 8) else "manual"
             | none => "manual"))
          p.image p.image_pull_policy
          (build_command_string
            (load_config_value env.store VAR_HOST p.host) p.port
            (load_config_value env.store VAR_DBNAME p.dbname)
            (load_config_value env.store VAR_USER p.user)
            (load_config_value env.store VAR_BUCKET p.bucket) p.aws_profile
            (load_config_value env.store VAR_AWS_REGION p.aws_region)
            p.backup_all
            (load_config_value env.store VAR_PREFIX_NAME p.prefix_)
            (load_config_value (fun n => (env.store n).map some)
              VAR_AWS_ENDPOINT_URL p.aws_endpoint_url)
            p.compress p.keep_local)
          (build_env_vars p.k8s_secret_name) p.backoff_limit
          p.ttl_seconds_after_finished p.namespace_ p.image_pull_secret,
         p.namespace_, true, 600⟩ ::
      FlowEvent.wait_for_completion ::
      (if p.include_logs then [FlowEvent.fetch_logs] else []) ∧
    countTriggers (run_pg_backup env p).1 = 1 := by
  refine ⟨rfl, ?_⟩
  rcases hinc : p.include_logs <;>
    simp [run_pg_backup, countTriggers, hinc]

/-- C6: log retrieval is controlled by `include_logs`: with it true the
log fetch happens and the response has exactly the keys success, bucket,
prefix and logs, with "logs" holding the fetched value; with it false no
fetch happens and the response has exactly the keys success, bucket and
prefix. -/
theorem c6_logs_optional (env : FlowEnv) (p : FlowParams) :
    (run_pg_backup env
        ⟨p.namespace_, p.k8s_secret_name, p.image, p.image_pull_policy,
         p.image_pull_secret, p.host, p.port, p.dbname, p.user, p.backup_all,
         p.bucket, p.prefix_, p.aws_profile, p.aws_region, p.aws_endpoint_url,
         p.compress, p.keep_local, true, p.backoff_limit,
         p.ttl_seconds_after_finished⟩).2.map Prod.fst
      = ["success", "bucket", "prefix", "logs"] ∧
    (run_pg_backup env
        ⟨p.namespace_, p.k8s_secret_name, p.image, p.image_pull_policy,
         p.image_pull_secret, p.host, p.port, p.dbname, p.user, p.backup_all,
         p.bucket, p.prefix_, p.aws_profile, p.aws_region, p.aws_endpoint_url,
         p.compress, p.keep_local, true, p.backoff_limit,
         p.ttl_seconds_after_finished⟩).2.lookup "logs"
      = some env.fetched_logs ∧
    FlowEvent.fetch_logs ∈ (run_pg_backup env
        ⟨p.namespace_, p.k8s_secret_name, p.image, p.image_pull_policy,
         p.image_pull_secret, p.host, p.port, p.dbname, p.user, p.backup_all,
         p.bucket, p.prefix_, p.aws_profile, p.aws_region, p.aws_endpoint_url,
         p.compress, p.keep_local, true, p.backoff_limit,
         p.ttl_seconds_after_finished⟩).1 ∧
    (run_pg_backup env
        ⟨p.namespace_, p.k8s_secret_name, p.image, p.image_pull_policy,
         p.image_pull_secret, p.host, p.port, p.dbname, p.user, p.backup_all,
         p.bucket, p.prefix_, p.aws_profile, p.aws_region, p.aws_endpoint_url,
         p.compress, p.keep_local, false, p.backoff_limit,
         p.ttl_seconds_after_finished⟩).2.map Prod.fst
      = ["success", "bucket", "prefix"] ∧
    FlowEvent.fetch_logs ∉ (run_pg_backup env
        ⟨p.namespace_, p.k8s_secret_name, p.image, p.image_pull_policy,
         p.image_pull_secret, p.host, p.port, p.dbname, p.user, p.backup_all,
         p.bucket, p.prefix_, p.aws_profile, p.aws_region, p.aws_endpoint_url,
         p.compress, p.keep_local, false, p.backoff_limit,
         p.ttl_seconds_after_finished⟩).1 := by
  refine ⟨rfl, rfl, ?_, rfl, ?_⟩
  · simp [run_pg_backup]
  · simp [run_pg_backup]

/-- C8: the Kubernetes Job name submitted by the flow is "pg-s3-backup-"
followed by the first 8 characters of the flow-run id when one is present
(and nonempty), and is "pg-s3-backup-manual" otherwise; in every case it
starts with "pg-s3-backup-" and is at most 21 characters long. -/
theorem c8_job_name_shape (env : FlowEnv) (p : FlowParams) :
    ∃ t : String,
      ((triggeredManifest (run_pg_backup env p)).bind
          (fun m => pyGet2 m "metadata" "name"))
        = some (.pstr ("pg-s3-backup-" ++ t)) ∧
      t = (match env.flow_run_id with
           | some i => if i ≠ "" then String.mk (i.data.take 8) else "manual"
           | none => "manual") ∧
      ("pg-s3-backup-" ++ t).length ≤ 21 := by
  refine ⟨(match env.flow_run_id with
           | some i => if i ≠ "" then String.mk (i.data.take 8) else "manual"
           | none => "manual"), rfl, rfl, ?_⟩
  rcases env.flow_run_id with _ | i
  · decide
  · by_cases hi : i = ""
    · subst hi; decide
    · show ("pg-s3-backup-" ++
          (if i ≠ "" then String.mk (i.data.take 8) else "manual")).length ≤ 21
      rw [if_pos hi, String.length_append]
      have h8 : (String.mk (i.data.take 8)).length ≤ 8 := by
        show (i.data.take 8).length ≤ 8
        simp [List.length_take]
      have h13 : ("pg-s3-backup-").length = 13 := rfl
      omega

end DbBackupFlow
